import Mathlib

/-!
Verification of the RockDeals POS checkout core
(`rockdeals_frontend/src/components/POS.jsx`).

The component keeps its whole state in React `useState` hooks:
`cart` (a list of items), `products`, `selectedCustomer`, `paymentMethod`
(the string `cash` or `card`), `amountPaid` (a free-form text field),
`discount` and `tax` (numbers).  We embed that state as the structure
`PosState` below, JavaScript numbers as `ℚ` (the formulas in the source
are exact rational arithmetic; only their binary-float evaluation is
approximated), and the `amountPaid` text field as `Option ℚ`:
`none` stands for an entry on which `parseFloat` yields `NaN` (for
example the empty string), so that `parseFloat(amountPaid) || 0`
becomes `Option.getD · 0`.  Quantities are `ℤ`: every call site in the
component passes an integer quantity.

Each definition mirrors one function of the component; the line numbers
in the doc comments refer to `POS.jsx`.
-/

/-- The payment method state; the component only ever stores the strings
`cash` and `card` in it (initial value `cash`, buttons set one of the two). -/
inductive PaymentMethod where
  | cash : PaymentMethod
  | card : PaymentMethod
deriving Repr, DecidableEq

/-- A catalog product as the component stores it after mapping the backend
fields (lines 39-46): `id`, `name`, `price`, `stock`, `barcode`, `category`. -/
structure Product where
  id : Nat
  name : String
  price : ℚ
  stock : ℤ
  barcode : String
  category : String
deriving Repr, DecidableEq

/-- A cart line: a spread copy of the product (line 69 `{ ...product, quantity: 1 }`)
plus the `quantity` field. -/
structure CartItem where
  id : Nat
  name : String
  price : ℚ
  stock : ℤ
  barcode : String
  category : String
  quantity : ℤ
deriving Repr, DecidableEq

/-- A raw product row as the backend returns it, before the field mapping
(lines 39-46 and 162-169). -/
structure BackendProduct where
  id : Nat
  name : String
  price : ℚ
  stock_quantity : ℤ
  barcode : String
  category_name : Option String
deriving Repr, DecidableEq

/-- The field mapping applied to each backend row:
`{ id, name, price, stock: stock_quantity, barcode, category: category_name || 'General' }`. -/
def mapProduct (p : BackendProduct) : Product :=
  { id := p.id
    name := p.name
    price := p.price
    stock := p.stock_quantity
    barcode := p.barcode
    category := p.category_name.getD "General" }

/-- The component state: the `useState` hooks of `POS` (lines 20-27) that the
checkout logic reads or writes.  `searchTerm` is omitted (pure display filter). -/
structure PosState where
  cart : List CartItem
  products : List Product
  selectedCustomer : Option Nat
  paymentMethod : PaymentMethod
  amountPaid : Option ℚ
  discount : ℚ
  tax : ℚ
deriving Repr, DecidableEq

/-- The spread `{ ...product, quantity: 1 }` of line 69. -/
def newLine (product : Product) : CartItem :=
  { id := product.id
    name := product.name
    price := product.price
    stock := product.stock
    barcode := product.barcode
    category := product.category
    quantity := 1 }

/-- `addToCart` (lines 60-71): if a line with the product's id exists,
map over the cart incrementing the quantity of every line with that id;
otherwise append a fresh line with quantity 1. -/
def addToCart (cart : List CartItem) (product : Product) : List CartItem :=
  match cart.find? (fun item => item.id == product.id) with
  | some _ =>
      cart.map (fun item =>
        if item.id == product.id then { item with quantity := item.quantity + 1 } else item)
  | none => cart ++ [newLine product]

/-- `removeFromCart` (lines 83-85): `cart.filter(item => item.id !== id)`. -/
def removeFromCart (cart : List CartItem) (id : Nat) : List CartItem :=
  cart.filter (fun item => item.id != id)

/-- `updateQuantity` (lines 73-81): quantities `<= 0` remove the line,
otherwise every line with the id gets the new quantity. -/
def updateQuantity (cart : List CartItem) (id : Nat) (newQuantity : ℤ) : List CartItem :=
  if newQuantity ≤ 0 then
    removeFromCart cart id
  else
    cart.map (fun item =>
      if item.id == id then { item with quantity := newQuantity } else item)

/-- `clearCart` (lines 87-92): empties the cart, unsets the customer, clears the
amount-paid field and resets the discount to 0.  It does not touch `tax`,
`paymentMethod` or `products`. -/
def clearCart (s : PosState) : PosState :=
  { s with cart := [], selectedCustomer := none, amountPaid := none, discount := 0 }

/-- `calculateSubtotal` (lines 94-96): `cart.reduce((sum, item) => sum + item.price * item.quantity, 0)`. -/
def calculateSubtotal (cart : List CartItem) : ℚ :=
  cart.foldl (fun sum item => sum + item.price * (item.quantity : ℚ)) 0

/-- `calculateDiscountAmount` (lines 98-100). -/
def calculateDiscountAmount (s : PosState) : ℚ :=
  calculateSubtotal s.cart * (s.discount / 100)

/-- `calculateTaxAmount` (lines 102-104): tax applies to the post-discount base. -/
def calculateTaxAmount (s : PosState) : ℚ :=
  (calculateSubtotal s.cart - calculateDiscountAmount s) * (s.tax / 100)

/-- `calculateTotal` (lines 106-108). -/
def calculateTotal (s : PosState) : ℚ :=
  calculateSubtotal s.cart - calculateDiscountAmount s + calculateTaxAmount s

/-- `calculateChange` (lines 110-114): `Math.max(0, (parseFloat(amountPaid) || 0) - total)`. -/
def calculateChange (s : PosState) : ℚ :=
  max 0 (s.amountPaid.getD 0 - calculateTotal s)

/-- The discount input handler (line 306):
`setDiscount(Math.max(0, Math.min(100, parseFloat(e.target.value) || 0)))`.
The argument is the `parseFloat` of the raw text, `none` for `NaN`. -/
def setDiscountInput (s : PosState) (value : Option ℚ) : PosState :=
  { s with discount := max 0 (min 100 (value.getD 0)) }

/-- One item of the request body built at lines 132-136:
`{ product_id, quantity, unit_price }`. -/
structure SaleItem where
  product_id : Nat
  quantity : ℤ
  unit_price : ℚ
deriving Repr, DecidableEq

/-- The request body `saleData` built at lines 131-141. -/
structure SaleData where
  items : List SaleItem
  customer_id : Option Nat
  total_amount : ℚ
  payment_method : PaymentMethod
  status : String
deriving Repr, DecidableEq

/-- The parsed body of a successful `POST /sales` response.  The component
only logs it (line 155); the shape `{saleId, receiptReference}` is the sale
storage interface of the surrounding application. -/
structure SaleResult where
  saleId : Nat
  receiptReference : String
deriving Repr, DecidableEq

/-- Builds `saleData` exactly as lines 131-141 do. -/
def buildSaleData (s : PosState) : SaleData :=
  { items := s.cart.map (fun item =>
      { product_id := item.id, quantity := item.quantity, unit_price := item.price })
    customer_id := s.selectedCustomer
    total_amount := calculateTotal s
    payment_method := s.paymentMethod
    status := "completed" }

/-- The synchronous segment of `processSale` up to and including the first
`fetch` argument (lines 116-150): the two validations and the request build.
It reads the state and mutates nothing; a value `Except.ok r` means the
request `r` is sent to `POST /sales`, `Except.error msg` means the function
returned early after `alert(msg)` with no request sent. -/
def processSaleRequest (s : PosState) : Except String SaleData :=
  if s.cart.length = 0 then
    Except.error "Cart is empty!"
  else if s.paymentMethod = PaymentMethod.cash ∧ s.amountPaid.getD 0 < calculateTotal s then
    Except.error "Insufficient payment amount!"
  else
    Except.ok (buildSaleData s)

/-- The whole of `processSale` (lines 116-174) as a function of the state and
of the two collaborator round trips it performs: `saleResp` is the outcome of
`POST /sales` (`none` when the response is not ok or the transport fails, both
of which land in the `catch`), and `productsResp` the outcome of the follow-up
`GET /products` stock refresh.  The result is the final state paired with the
`alert` messages raised, in order.  The function performs no retry: each round
trip is consumed exactly once. -/
def processSale (s : PosState) (saleResp : Option SaleResult)
    (productsResp : Option (List BackendProduct)) : PosState × List String :=
  match processSaleRequest s with
  | Except.error msg => (s, [msg])
  | Except.ok _ =>
      match saleResp with
      | none => (s, ["Error processing sale. Please try again."])
      | some _ =>
          match productsResp with
          | none => (clearCart s, ["Sale completed successfully!",
                                   "Error processing sale. Please try again."])
          | some ps =>
              ({ clearCart s with products := ps.map mapProduct },
               ["Sale completed successfully!"])

/-- One cart mutation of the aggregator: the four operations the component
exposes on the cart list (`addToCart`, `updateQuantity`, `removeFromCart`,
`clearCart` restricted to the cart field). -/
inductive CartOp where
  | add : Product → CartOp
  | setQty : Nat → ℤ → CartOp
  | remove : Nat → CartOp
  | clear : CartOp

/-- Applies one operation to the cart list. -/
def applyOp (cart : List CartItem) : CartOp → List CartItem
  | CartOp.add p => addToCart cart p
  | CartOp.setQty id q => updateQuantity cart id q
  | CartOp.remove id => removeFromCart cart id
  | CartOp.clear => []

/-- Runs a sequence of operations starting from the empty cart. -/
def runOps (ops : List CartOp) : List CartItem :=
  ops.foldl applyOp []

/-- The fold of `calculateSubtotal` started from `a` is `a` plus the sum of
the per-line amounts. -/
theorem subtotal_foldl (cart : List CartItem) (a : ℚ) :
    cart.foldl (fun sum item => sum + item.price * (item.quantity : ℚ)) a =
      a + (cart.map (fun item => item.price * (item.quantity : ℚ))).sum := by
  induction cart generalizing a with
  | nil => simp
  | cons x xs ih => simp [List.foldl_cons, ih, add_assoc]

/-- Claim C1: for every cart state, the derived values satisfy exactly the
documented formulas — `subtotal` is the sum of `unitPrice * quantity` over
the line items, `discountAmount = subtotal * (discountPercent / 100)`,
`taxAmount = (subtotal - discountAmount) * (taxPercent / 100)` on the
post-discount base, `total = (subtotal - discountAmount) + taxAmount`, and
for cash payment `changeDue = max(0, amountTendered - total)`. -/
theorem c1_derived_values (s : PosState) :
    calculateSubtotal s.cart = (s.cart.map (fun item => item.price * (item.quantity : ℚ))).sum ∧
    calculateDiscountAmount s = calculateSubtotal s.cart * (s.discount / 100) ∧
    calculateTaxAmount s = (calculateSubtotal s.cart - calculateDiscountAmount s) * (s.tax / 100) ∧
    calculateTotal s = (calculateSubtotal s.cart - calculateDiscountAmount s) + calculateTaxAmount s ∧
    (s.paymentMethod = PaymentMethod.cash →
      calculateChange s = max 0 (s.amountPaid.getD 0 - calculateTotal s)) := by
  refine ⟨?_, rfl, rfl, rfl, fun _ => rfl⟩
  simpa using subtotal_foldl s.cart 0

/-- Witness for C1 on a concrete cash cart: one line at price 10, quantity 2,
discount 50, tax 10, 25 tendered. -/
theorem c1_derived_values_witness :
    calculateChange
        { cart := [{ id := 1, name := "rock", price := 10, stock := 5, barcode := "b1",
                     category := "General", quantity := 2 }]
          products := [], selectedCustomer := none, paymentMethod := PaymentMethod.cash
          amountPaid := some 25, discount := 50, tax := 10 } =
      max 0 ((25 : ℚ) - calculateTotal
        { cart := [{ id := 1, name := "rock", price := 10, stock := 5, barcode := "b1",
                     category := "General", quantity := 2 }]
          products := [], selectedCustomer := none, paymentMethod := PaymentMethod.cash
          amountPaid := some 25, discount := 50, tax := 10 }) :=
  (c1_derived_values _).2.2.2.2 rfl

/-- Claim C8: the discount input stores the clamp of the entered value into
`[0, 100]`; in particular `-5` stores `0` and `150` stores `100`. -/
theorem c8_discount_clamped (s : PosState) (v : ℚ) :
    (setDiscountInput s (some v)).discount = max 0 (min 100 v) ∧
    (setDiscountInput s (some (-5))).discount = 0 ∧
    (setDiscountInput s (some 150)).discount = 100 := by
  refine ⟨rfl, by simp [setDiscountInput], by simp [setDiscountInput]; norm_num⟩

/-- A state holding the given cart with the given discount and tax rates;
used to speak about `calculateTotal` as a function of the two rates with the
line items held fixed. -/
def mkState (items : List CartItem) (d t : ℚ) : PosState :=
  { cart := items, products := [], selectedCustomer := none
    paymentMethod := PaymentMethod.cash, amountPaid := none, discount := d, tax := t }

/-- Closed form of the total for a `mkState` state. -/
theorem total_mkState (items : List CartItem) (d t : ℚ) :
    calculateTotal (mkState items d t) =
      calculateSubtotal items * (1 - d / 100) * (1 + t / 100) := by
  simp only [calculateTotal, calculateTaxAmount, calculateDiscountAmount, mkState]
  ring

/-- A sample catalog product used by the concrete witnesses below. -/
def rockProduct : Product :=
  { id := 1, name := "rock", price := 10, stock := 5, barcode := "b1", category := "General" }

/-- A cart line for `rockProduct` with the given quantity. -/
def rockLine (q : ℤ) : CartItem :=
  { newLine rockProduct with quantity := q }

/-- Claim C9: holding the line items (hence the subtotal) and the other
modifier fixed, the total is non-decreasing in the tax percent and
non-increasing in the discount percent, for discounts in the stored range
`[0, 100]` and non-negative tax rates. -/
theorem c9_total_monotone (items : List CartItem)
    (hsub : 0 ≤ calculateSubtotal items) :
    (∀ d t t', 0 ≤ d → d ≤ 100 → 0 ≤ t → t ≤ t' →
      calculateTotal (mkState items d t) ≤ calculateTotal (mkState items d t')) ∧
    (∀ d d' t, 0 ≤ d → d ≤ d' → d' ≤ 100 → 0 ≤ t →
      calculateTotal (mkState items d' t) ≤ calculateTotal (mkState items d t)) := by
  constructor
  · intro d t t' hd0 hd100 ht htt
    rw [total_mkState, total_mkState]
    have hbase : 0 ≤ calculateSubtotal items * (1 - d / 100) := by nlinarith
    nlinarith
  · intro d d' t hd0 hdd hd100 ht
    rw [total_mkState, total_mkState]
    have h1t : (0 : ℚ) ≤ 1 + t / 100 := by linarith
    nlinarith [mul_nonneg (mul_nonneg hsub h1t) (show (0 : ℚ) ≤ d' - d by linarith)]

/-- Witness for C9 on a one-line cart (price 10, quantity 1): total at tax 5
is at most total at tax 20, and total at discount 30 is at most total at
discount 10, all at discount range and non-negative rates. -/
theorem c9_total_monotone_witness :
    calculateTotal (mkState [rockLine 1] 10 5) ≤ calculateTotal (mkState [rockLine 1] 10 20) ∧
    calculateTotal (mkState [rockLine 1] 30 5) ≤ calculateTotal (mkState [rockLine 1] 10 5) := by
  have hsub : 0 ≤ calculateSubtotal [rockLine 1] := by
    norm_num [calculateSubtotal, rockLine, rockProduct, newLine]
  constructor
  · exact (c9_total_monotone _ hsub).1 10 5 20
      (by norm_num) (by norm_num) (by norm_num) (by norm_num)
  · exact (c9_total_monotone _ hsub).2 10 30 5
      (by norm_num) (by norm_num) (by norm_num) (by norm_num)

/-- The ids of the cart lines, in order. -/
def cartIds (cart : List CartItem) : List Nat :=
  cart.map (fun item => item.id)

/-- A map whose function keeps each line's id keeps the id list. -/
theorem cartIds_map_of_id_eq (cart : List CartItem) (f : CartItem → CartItem)
    (hf : ∀ x, (f x).id = x.id) : cartIds (cart.map f) = cartIds cart := by
  simp only [cartIds, List.map_map]
  exact List.map_congr_left (fun a _ => by simp [Function.comp, hf])

/-- Filtering the cart keeps the id list duplicate-free. -/
theorem cartIds_filter_nodup (cart : List CartItem) (p : CartItem → Bool)
    (h : (cartIds cart).Nodup) : (cartIds (cart.filter p)).Nodup :=
  h.sublist ((List.filter_sublist cart).map _)

/-- Every single operation keeps all quantities at least 1. -/
theorem quantity_inv_applyOp (cart : List CartItem)
    (h : ∀ item ∈ cart, 1 ≤ item.quantity) (op : CartOp) :
    ∀ item ∈ applyOp cart op, 1 ≤ item.quantity := by
  cases op with
  | add p =>
      simp only [applyOp, addToCart]
      cases cart.find? (fun item => item.id == p.id) with
      | some _ =>
          intro item hmem
          obtain ⟨x, hx, rfl⟩ := List.mem_map.mp hmem
          have hq := h x hx
          split <;> simpa using by omega
      | none =>
          intro item hmem
          rcases List.mem_append.mp hmem with hcart | hnew
          · exact h item hcart
          · simp only [List.mem_singleton] at hnew
            subst hnew
            simp [newLine]
  | setQty pid q =>
      simp only [applyOp, updateQuantity]
      split
      · intro item hmem
        exact h item (List.mem_of_mem_filter hmem)
      · intro item hmem
        obtain ⟨x, hx, rfl⟩ := List.mem_map.mp hmem
        split
        · simpa using by omega
        · exact h x hx
  | remove pid =>
      intro item hmem
      exact h item (List.mem_of_mem_filter hmem)
  | clear =>
      intro item hmem
      simp [applyOp] at hmem

/-- Quantity invariant carried along a fold over operations. -/
theorem quantity_inv_foldl (ops : List CartOp) (cart : List CartItem)
    (h : ∀ item ∈ cart, 1 ≤ item.quantity) :
    ∀ item ∈ ops.foldl applyOp cart, 1 ≤ item.quantity := by
  induction ops generalizing cart with
  | nil => simpa using h
  | cons op rest ih =>
      simp only [List.foldl_cons]
      exact ih (applyOp cart op) (quantity_inv_applyOp cart h op)

/-- Claim C7: after any finite sequence of add, set-quantity, remove and
clear operations from the empty cart, every line has quantity at least 1;
a set-quantity with a non-positive value removes the line instead of storing
it, and a set-quantity for an absent id is a no-op. -/
theorem c7_quantity_ge_one :
    (∀ ops : List CartOp, ∀ item ∈ runOps ops, 1 ≤ item.quantity) ∧
    (∀ cart pid q, q ≤ 0 → updateQuantity cart pid q = removeFromCart cart pid) ∧
    (∀ cart pid q, (∀ item ∈ cart, item.id ≠ pid) → updateQuantity cart pid q = cart) := by
  refine ⟨?_, ?_, ?_⟩
  · intro ops
    exact quantity_inv_foldl ops [] (by simp)
  · intro cart pid q hq
    simp [updateQuantity, hq]
  · intro cart pid q habs
    by_cases hq : q ≤ 0
    · simp only [updateQuantity, if_pos hq, removeFromCart]
      exact List.filter_eq_self.mpr (fun a ha => by simpa using habs a ha)
    · simp only [updateQuantity, if_neg hq]
      have : cart.map (fun item =>
          if item.id == pid then { item with quantity := q } else item) =
          cart.map (fun item => item) :=
        List.map_congr_left (fun a ha => by simp [habs a ha])
      simpa using this

/-- Witness for C7: a quantity bound on a concrete reachable cart, a concrete
non-positive set-quantity acting as removal, and a concrete absent-id no-op. -/
theorem c7_quantity_ge_one_witness :
    (1 : ℤ) ≤ (rockLine 1).quantity ∧
    updateQuantity [rockLine 2] 1 0 = removeFromCart [rockLine 2] 1 ∧
    updateQuantity [rockLine 2] 9 5 = [rockLine 2] :=
  ⟨c7_quantity_ge_one.1 [CartOp.add rockProduct] (rockLine 1) (by decide),
   c7_quantity_ge_one.2.1 [rockLine 2] 1 0 (by norm_num),
   c7_quantity_ge_one.2.2 [rockLine 2] 9 5 (by decide)⟩

/-- Every single operation keeps the id list duplicate-free. -/
theorem nodup_applyOp (cart : List CartItem)
    (h : (cartIds cart).Nodup) (op : CartOp) :
    (cartIds (applyOp cart op)).Nodup := by
  cases op with
  | add p =>
      simp only [applyOp, addToCart]
      cases hfind : cart.find? (fun item => item.id == p.id) with
      | some _ =>
          rw [cartIds_map_of_id_eq cart _ (fun x => by split <;> rfl)]
          exact h
      | none =>
          have habs : p.id ∉ cartIds cart := by
            intro hmem
            obtain ⟨x, hx, hxid⟩ := List.mem_map.mp hmem
            have := List.find?_eq_none.mp hfind x hx
            simp [hxid] at this
          have heq : cartIds (cart ++ [newLine p]) = cartIds cart ++ [p.id] := by
            simp [cartIds, newLine]
          rw [heq]
          have hiff : (cartIds cart ++ [p.id]).Nodup ↔
              (cartIds cart).Nodup ∧ p.id ∉ cartIds cart := by
            simp [List.nodup_append]
          exact hiff.mpr ⟨h, habs⟩
  | setQty pid q =>
      simp only [applyOp, updateQuantity]
      split
      · exact cartIds_filter_nodup cart _ h
      · rw [cartIds_map_of_id_eq cart _ (fun x => by split <;> rfl)]
        exact h
  | remove pid =>
      exact cartIds_filter_nodup cart _ h
  | clear =>
      simp [applyOp, cartIds]

/-- Id distinctness carried along a fold over operations. -/
theorem nodup_foldl (ops : List CartOp) (cart : List CartItem)
    (h : (cartIds cart).Nodup) :
    (cartIds (ops.foldl applyOp cart)).Nodup := by
  induction ops generalizing cart with
  | nil => simpa using h
  | cons op rest ih =>
      simp only [List.foldl_cons]
      exact ih (applyOp cart op) (nodup_applyOp cart h op)

/-- Claim C10: after any finite sequence of add, set-quantity, remove and
clear operations from the empty cart, no two lines share a product id; adding
a product that is already present only increments the quantity of the lines
carrying its id, creating no new line. -/
theorem c10_distinct_ids :
    (∀ ops : List CartOp, (cartIds (runOps ops)).Nodup) ∧
    (∀ cart (p : Product), (∃ item ∈ cart, item.id = p.id) →
      addToCart cart p = cart.map (fun item =>
        if item.id == p.id then { item with quantity := item.quantity + 1 } else item)) := by
  constructor
  · intro ops
    exact nodup_foldl ops [] (by simp [cartIds])
  · intro cart p hex
    obtain ⟨x, hx, hxid⟩ := hex
    cases hfind : cart.find? (fun item => item.id == p.id) with
    | none =>
        have := List.find?_eq_none.mp hfind x hx
        simp [hxid] at this
    | some y =>
        simp [addToCart, hfind]

/-- Witness for C10: ids stay distinct on a concrete operation sequence, and
adding the already-present product to the one-line cart increments the line. -/
theorem c10_distinct_ids_witness :
    (cartIds (runOps [CartOp.add rockProduct, CartOp.add rockProduct])).Nodup ∧
    addToCart [rockLine 1] rockProduct = [rockLine 1].map (fun item =>
      if item.id == rockProduct.id then { item with quantity := item.quantity + 1 }
      else item) :=
  ⟨c10_distinct_ids.1 [CartOp.add rockProduct, CartOp.add rockProduct],
   c10_distinct_ids.2 [rockLine 1] rockProduct ⟨rockLine 1, by decide, by decide⟩⟩

/-- An empty cart makes the request build fail with the empty-cart alert. -/
theorem processSaleRequest_empty (s : PosState) (h : s.cart = []) :
    processSaleRequest s = Except.error "Cart is empty!" := by
  simp [processSaleRequest, h]

/-- A cash sale with a tendered amount below the total fails the second check. -/
theorem processSaleRequest_insufficient (s : PosState) (h1 : s.cart ≠ [])
    (h2 : s.paymentMethod = PaymentMethod.cash)
    (h3 : s.amountPaid.getD 0 < calculateTotal s) :
    processSaleRequest s = Except.error "Insufficient payment amount!" := by
  have hlen : ¬ s.cart.length = 0 := by simpa [List.length_eq_zero] using h1
  simp only [processSaleRequest, if_neg hlen]
  rw [if_pos ⟨h2, h3⟩]

/-- Both validations passing, the request is built and sent. -/
theorem processSaleRequest_ok (s : PosState) (h1 : s.cart ≠ [])
    (h2 : s.paymentMethod = PaymentMethod.cash → calculateTotal s ≤ s.amountPaid.getD 0) :
    processSaleRequest s = Except.ok (buildSaleData s) := by
  have hlen : ¬ s.cart.length = 0 := by simpa [List.length_eq_zero] using h1
  have hcond : ¬ (s.paymentMethod = PaymentMethod.cash ∧
      s.amountPaid.getD 0 < calculateTotal s) := by
    rintro ⟨hm, hlt⟩
    exact absurd (h2 hm) (not_le.mpr hlt)
  simp only [processSaleRequest, if_neg hlen]
  rw [if_neg hcond]

/-- A failed validation short-circuits the whole of `processSale`: the state
comes back unchanged with the single alert, whatever the network would have
answered. -/
theorem processSale_of_error (s : PosState) (saleResp : Option SaleResult)
    (productsResp : Option (List BackendProduct)) (msg : String)
    (h : processSaleRequest s = Except.error msg) :
    processSale s saleResp productsResp = (s, [msg]) := by
  simp [processSale, h]

/-- A failed `POST /sales` round trip lands in the catch block: the state comes
back unchanged with the generic failure alert. -/
theorem processSale_of_saleFail (s : PosState)
    (productsResp : Option (List BackendProduct)) (req : SaleData)
    (h : processSaleRequest s = Except.ok req) :
    processSale s none productsResp = (s, ["Error processing sale. Please try again."]) := by
  simp [processSale, h]

/-- A successful sale whose stock refresh fails: the cart is cleared, then the
catch block raises the failure alert after the success alert. -/
theorem processSale_of_refreshFail (s : PosState) (r : SaleResult) (req : SaleData)
    (h : processSaleRequest s = Except.ok req) :
    processSale s (some r) none =
      (clearCart s, ["Sale completed successfully!",
                     "Error processing sale. Please try again."]) := by
  simp [processSale, h]

/-- A fully successful run: cart cleared, products refreshed, success alert. -/
theorem processSale_of_ok (s : PosState) (r : SaleResult)
    (ps : List BackendProduct) (req : SaleData)
    (h : processSaleRequest s = Except.ok req) :
    processSale s (some r) (some ps) =
      ({ clearCart s with products := ps.map mapProduct },
       ["Sale completed successfully!"]) := by
  simp [processSale, h]

/-- Any error of the request build is one of the two validation alerts. -/
theorem processSaleRequest_error_cases (s : PosState) (msg : String)
    (h : processSaleRequest s = Except.error msg) :
    msg = "Cart is empty!" ∨ msg = "Insufficient payment amount!" := by
  unfold processSaleRequest at h
  split at h
  · exact Or.inl (Except.error.injEq _ _ ▸ h).symm
  · split at h
    · exact Or.inr (Except.error.injEq _ _ ▸ h).symm
    · exact absurd h (by simp)

/-- A concrete cash state used in witnesses: one `rockProduct` line (price 10,
quantity 1), no discount, no tax, so the total is 10; `paid` tendered. -/
def cashState (paid : ℚ) : PosState :=
  { cart := [rockLine 1], products := [], selectedCustomer := none
    paymentMethod := PaymentMethod.cash, amountPaid := some paid, discount := 0, tax := 0 }

/-- The total of `cashState` is 10. -/
theorem total_cashState (paid : ℚ) : calculateTotal (cashState paid) = 10 := by
  norm_num [calculateTotal, calculateTaxAmount, calculateDiscountAmount,
    calculateSubtotal, cashState, rockLine, rockProduct, newLine]

/-- Claim C2 as amended: `processSale` checks its preconditions before any
side effect — an empty cart fails with the empty-cart alert, and a cash sale
tendered below the total fails with the fixed insufficient-payment alert
(which does not carry the shortfall); in both cases the state is returned
unchanged and the outcome is independent of both collaborator round trips,
so no SaleRequest is sent. -/
theorem c2_preconditions (s : PosState) (saleResp : Option SaleResult)
    (productsResp : Option (List BackendProduct)) :
    (s.cart = [] → processSale s saleResp productsResp = (s, ["Cart is empty!"])) ∧
    (s.cart ≠ [] → s.paymentMethod = PaymentMethod.cash →
      s.amountPaid.getD 0 < calculateTotal s →
      processSale s saleResp productsResp = (s, ["Insufficient payment amount!"])) := by
  constructor
  · intro h
    exact processSale_of_error s saleResp productsResp _ (processSaleRequest_empty s h)
  · intro h1 h2 h3
    exact processSale_of_error s saleResp productsResp _
      (processSaleRequest_insufficient s h1 h2 h3)

/-- Witness for C2 as amended: the empty cart and a cash cart tendering 4
against a total of 10, both with arbitrary collaborator responses. -/
theorem c2_preconditions_witness :
    processSale (mkState [] 0 15) none none = (mkState [] 0 15, ["Cart is empty!"]) ∧
    processSale (cashState 4) none none = (cashState 4, ["Insufficient payment amount!"]) := by
  constructor
  · exact (c2_preconditions (mkState [] 0 15) none none).1 rfl
  · exact (c2_preconditions (cashState 4) none none).2 (by simp [cashState])
      rfl (by rw [total_cashState]; norm_num [cashState])

/-- Counterexample to C2 as stated: the insufficient-payment failure does not
report the shortfall.  Two cash carts short by 6 and by 1 respectively produce
the very same outcome, the constant alert string of line 126. -/
theorem c2_counterexample :
    processSale (cashState 4) none none = (cashState 4, ["Insufficient payment amount!"]) ∧
    processSale (cashState 9) none none = (cashState 9, ["Insufficient payment amount!"]) ∧
    calculateTotal (cashState 4) - (cashState 4).amountPaid.getD 0 ≠
      calculateTotal (cashState 9) - (cashState 9).amountPaid.getD 0 := by
  refine ⟨?_, ?_, ?_⟩
  · exact processSale_of_error _ none none _ (processSaleRequest_insufficient _
      (by simp [cashState]) rfl (by rw [total_cashState]; norm_num [cashState]))
  · exact processSale_of_error _ none none _ (processSaleRequest_insufficient _
      (by simp [cashState]) rfl (by rw [total_cashState]; norm_num [cashState]))
  · rw [total_cashState, total_cashState]
    norm_num [cashState]

/-- Claim C3: when the submission fails — either validation rejects it or the
`POST /sales` round trip errors — the whole state (so the cart lines, the
discount, the tax, the payment method, the tendered amount, the customer and
the product list) is returned unchanged, a single error alert is surfaced,
and the outcome never depends on more than the one request (no retry). -/
theorem c3_failure_leaves_state (s : PosState) (saleResp : Option SaleResult)
    (productsResp : Option (List BackendProduct))
    (hfail : (∃ msg, processSaleRequest s = Except.error msg) ∨ saleResp = none) :
    (processSale s saleResp productsResp).1 = s ∧
    ∃ msg, (processSale s saleResp productsResp).2 = [msg] ∧
      (msg = "Cart is empty!" ∨ msg = "Insufficient payment amount!" ∨
       msg = "Error processing sale. Please try again.") := by
  cases hreq : processSaleRequest s with
  | error msg =>
      rw [processSale_of_error s saleResp productsResp msg hreq]
      rcases processSaleRequest_error_cases s msg hreq with h | h
      · exact ⟨rfl, msg, rfl, Or.inl h⟩
      · exact ⟨rfl, msg, rfl, Or.inr (Or.inl h)⟩
  | ok req =>
      have hnone : saleResp = none := by
        rcases hfail with ⟨msg, hmsg⟩ | hnone
        · rw [hreq] at hmsg; exact absurd hmsg (by simp)
        · exact hnone
      subst hnone
      rw [processSale_of_saleFail s productsResp req hreq]
      exact ⟨rfl, _, rfl, Or.inr (Or.inr rfl)⟩

/-- Witness for C3: a valid cash cart whose `POST /sales` round trip fails;
the state comes back unchanged with the generic failure alert. -/
theorem c3_failure_leaves_state_witness :
    (processSale (cashState 20) none none).1 = cashState 20 ∧
    ∃ msg, (processSale (cashState 20) none none).2 = [msg] ∧
      (msg = "Cart is empty!" ∨ msg = "Insufficient payment amount!" ∨
       msg = "Error processing sale. Please try again.") :=
  c3_failure_leaves_state (cashState 20) none none (Or.inr rfl)

/-- Claim C4 as amended: when both validations pass and `POST /sales`
succeeds, `processSale` clears the cart aggregator — empty cart, discount 0,
tendered amount cleared, customer unset — and signals success with the fixed
alert; it returns neither the sale identifier (which is only logged) nor the
change due. -/
theorem c4_success_clears (s : PosState) (r : SaleResult)
    (productsResp : Option (List BackendProduct)) (req : SaleData)
    (hok : processSaleRequest s = Except.ok req) :
    (processSale s (some r) productsResp).1.cart = [] ∧
    (processSale s (some r) productsResp).1.discount = 0 ∧
    (processSale s (some r) productsResp).1.amountPaid = none ∧
    (processSale s (some r) productsResp).1.selectedCustomer = none ∧
    (processSale s (some r) productsResp).2.head? = some "Sale completed successfully!" := by
  cases productsResp with
  | none =>
      rw [processSale_of_refreshFail s r req hok]
      exact ⟨rfl, rfl, rfl, rfl, rfl⟩
  | some ps =>
      rw [processSale_of_ok s r ps req hok]
      exact ⟨rfl, rfl, rfl, rfl, rfl⟩

/-- Witness for C4 as amended: the valid cash cart tendering 20 against a
total of 10 with an accepted sale and a successful stock refresh. -/
theorem c4_success_clears_witness :
    (processSale (cashState 20) (some { saleId := 1, receiptReference := "R1" })
        (some [])).1.cart = [] ∧
    (processSale (cashState 20) (some { saleId := 1, receiptReference := "R1" })
        (some [])).1.discount = 0 ∧
    (processSale (cashState 20) (some { saleId := 1, receiptReference := "R1" })
        (some [])).1.amountPaid = none ∧
    (processSale (cashState 20) (some { saleId := 1, receiptReference := "R1" })
        (some [])).1.selectedCustomer = none ∧
    (processSale (cashState 20) (some { saleId := 1, receiptReference := "R1" })
        (some [])).2.head? = some "Sale completed successfully!" :=
  c4_success_clears (cashState 20) _ (some []) (buildSaleData (cashState 20))
    (processSaleRequest_ok _ (by simp [cashState])
      (fun _ => by rw [total_cashState]; norm_num [cashState]))

/-- Counterexample to C4 as stated: the sale identifier and the change due are
not returned to the caller.  Two successful checkouts that differ in the sale
identifier assigned by the collaborator and in the change due (10 versus 490)
produce exactly the same final state and the same alerts. -/
theorem c4_counterexample :
    processSale (cashState 20) (some { saleId := 1, receiptReference := "R1" }) (some []) =
      processSale (cashState 500) (some { saleId := 2, receiptReference := "R2" }) (some []) ∧
    calculateChange (cashState 20) ≠ calculateChange (cashState 500) := by
  constructor
  · rw [processSale_of_ok _ _ _ (buildSaleData (cashState 20))
        (processSaleRequest_ok _ (by simp [cashState])
          (fun _ => by rw [total_cashState]; norm_num [cashState])),
      processSale_of_ok _ _ _ (buildSaleData (cashState 500))
        (processSaleRequest_ok _ (by simp [cashState])
          (fun _ => by rw [total_cashState]; norm_num [cashState]))]
    simp [clearCart, cashState]
  · simp only [calculateChange, total_cashState]
    norm_num [cashState]

/-- Claim C5 as amended: `processSale` has no in-flight guard.  Its only
outcomes are the four constant alerts below — no submission-in-progress error
exists — and the whole segment before the request is sent is the pure read
`processSaleRequest`, so a second call issued while the first is awaiting the
collaborator observes the very same state and behaves exactly as the first,
sending a second SaleRequest instead of being rejected. -/
theorem c5_no_inflight_guard (s : PosState) (saleResp : Option SaleResult)
    (productsResp : Option (List BackendProduct)) :
    ∀ msg ∈ (processSale s saleResp productsResp).2,
      msg = "Cart is empty!" ∨ msg = "Insufficient payment amount!" ∨
      msg = "Sale completed successfully!" ∨
      msg = "Error processing sale. Please try again." := by
  intro msg hmem
  cases hreq : processSaleRequest s with
  | error m =>
      rw [processSale_of_error s saleResp productsResp m hreq] at hmem
      simp only [List.mem_singleton] at hmem
      subst hmem
      rcases processSaleRequest_error_cases s msg hreq with h | h
      · exact Or.inl h
      · exact Or.inr (Or.inl h)
  | ok req =>
      cases saleResp with
      | none =>
          rw [processSale_of_saleFail s productsResp req hreq] at hmem
          simp only [List.mem_singleton] at hmem
          exact Or.inr (Or.inr (Or.inr hmem))
      | some r =>
          cases productsResp with
          | none =>
              rw [processSale_of_refreshFail s r req hreq] at hmem
              rcases List.mem_pair.mp hmem with h | h
              · exact Or.inr (Or.inr (Or.inl h))
              · exact Or.inr (Or.inr (Or.inr h))
          | some ps =>
              rw [processSale_of_ok s r ps req hreq] at hmem
              simp only [List.mem_singleton] at hmem
              exact Or.inr (Or.inr (Or.inl hmem))

/-- Witness for C5 as amended: the success alert of a completed checkout is
one of the four constants. -/
theorem c5_no_inflight_guard_witness :
    "Sale completed successfully!" = "Cart is empty!" ∨
    "Sale completed successfully!" = "Insufficient payment amount!" ∨
    "Sale completed successfully!" = "Sale completed successfully!" ∨
    "Sale completed successfully!" = "Error processing sale. Please try again." :=
  c5_no_inflight_guard (cashState 20) (some { saleId := 1, receiptReference := "R1" })
    (some []) "Sale completed successfully!"
    (by rw [processSale_of_ok _ _ _ (buildSaleData (cashState 20))
          (processSaleRequest_ok _ (by simp [cashState])
            (fun _ => by rw [total_cashState]; norm_num [cashState]))]
        exact List.mem_singleton.mpr rfl)

/-- Counterexample to C5 as stated: a submit call on the valid cash cart
`cashState 20` builds and sends a SaleRequest.  Since `processSale` writes no
state before its request goes out, a second call made while the first is in
flight evaluates `processSaleRequest` on this same state and therefore also
sends the request — it is not rejected with any submission-in-progress error
(no such outcome exists; see the alert enumeration). -/
theorem c5_counterexample :
    processSaleRequest (cashState 20) = Except.ok (buildSaleData (cashState 20)) :=
  processSaleRequest_ok _ (by simp [cashState])
    (fun _ => by rw [total_cashState]; norm_num [cashState])

/-- A concrete state with a card payment selected and a tax rate away from
the configured default of 15. -/
def c6state : PosState :=
  { cart := [rockLine 1], products := [], selectedCustomer := some 7
    paymentMethod := PaymentMethod.card, amountPaid := some 50, discount := 10, tax := 20 }

/-- Claim C6 as amended: `clearCart` empties the line items, resets the
discount to 0, clears the tendered amount and unsets the customer, but leaves
the payment method and the tax rate (and the product list) exactly as they
were — it does not reset them to `cash` and the default rate. -/
theorem c6_clear_fields (s : PosState) :
    (clearCart s).cart = [] ∧ (clearCart s).discount = 0 ∧
    (clearCart s).amountPaid = none ∧ (clearCart s).selectedCustomer = none ∧
    (clearCart s).paymentMethod = s.paymentMethod ∧ (clearCart s).tax = s.tax ∧
    (clearCart s).products = s.products :=
  ⟨rfl, rfl, rfl, rfl, rfl, rfl, rfl⟩

/-- Counterexample to C6 as stated: clearing a cart whose payment method is
`card` and whose tax rate is 20 leaves the payment method `card` (not the
claimed default `cash`) and the tax rate 20 (not the configured default 15). -/
theorem c6_counterexample :
    (clearCart c6state).paymentMethod = PaymentMethod.card ∧
    PaymentMethod.card ≠ PaymentMethod.cash ∧
    (clearCart c6state).tax = 20 ∧ (20 : ℚ) ≠ 15 :=
  ⟨rfl, by decide, rfl, by norm_num⟩
